import Mathlib

/-!
# Verification of the PapayaFresh backend helpers (server.js)

Shallow embedding of the pure logic of `server.js`:
`calculateFreshnessDistribution`, `calculateWeeklyScans`, `formatTimeAgo`,
the per-user fold of `GET /api/dashboard/stats`, and the delete-user
endpoint.  JavaScript numbers that stay integral are modelled as `Int`
(`Math.floor` of a quotient by a positive constant is Euclidean division);
JavaScript array cells that can hold `undefined` (holes) or `NaN` are
modelled by an explicit `JsVal` type, because `weeklyData[3 - diffWeeks]++`
can write past the end of the four-element array.
-/

set_option autoImplicit false

namespace Papaya

/-- ASCII lower-casing of one character, as `String.prototype.toLowerCase`
acts on the ASCII range (all trigger words are ASCII). -/
def lowerChar (c : Char) : Char :=
  if 'A' ≤ c ∧ c ≤ 'Z' then Char.ofNat (c.toNat + 32) else c

/-- `s.toLowerCase()` on the character list of a string. -/
def jsToLower (s : String) : List Char :=
  s.toList.map lowerChar

/-- Does `text` start with `pat`? -/
def startsWithChars : List Char → List Char → Bool
  | [], _ => true
  | _ :: _, [] => false
  | p :: ps, c :: cs => p == c && startsWithChars ps cs

/-- `text.includes(pat)` : `pat` occurs contiguously inside `text`. -/
def includesChars (pat : List Char) : List Char → Bool
  | [] => startsWithChars pat []
  | c :: cs => startsWithChars pat (c :: cs) || includesChars pat cs

/-- The freshness buckets of the dashboard. -/
inductive Freshness where
  | unripe
  | ripe
  | overripe
deriving DecidableEq, Repr

/-- First branch of the classifier chain:
`freshness.includes('unripe') || freshness === 'green' || freshness.includes('early')`
on the lower-cased label. -/
def unripeTrigger (f : List Char) : Bool :=
  includesChars "unripe".toList f || f == "green".toList || includesChars "early".toList f

/-- Second branch of the classifier chain:
`freshness.includes('overripe') || freshness === 'rotten' || freshness.includes('late')`
on the lower-cased label. -/
def overripeTrigger (f : List Char) : Bool :=
  includesChars "overripe".toList f || f == "rotten".toList || includesChars "late".toList f

/-- The if/else chain applied to one scan's freshness label inside
`calculateFreshnessDistribution` (the label is lower-cased first; the final
`else` buckets everything remaining as `ripe`). -/
def classifyFreshness (label : String) : Freshness :=
  let f := jsToLower label
  if unripeTrigger f then .unripe
  else if overripeTrigger f then .overripe
  else .ripe

/-- The `{ unripe, ripe, overripe }` tally object. -/
structure Distribution where
  unripe : Nat
  ripe : Nat
  overripe : Nat
deriving DecidableEq, Repr

/-- A timestamp-like value stored in a document field: either a Firestore
`Timestamp` (it has `toDate`, decoding to the given epoch-milliseconds
instant) or a raw value handed to `new Date(v)`, whose parse result is
`some` milliseconds or `none` for an Invalid Date. -/
inductive DateVal where
  | native (ms : Int)
  | raw (parse : Option Int)
deriving DecidableEq, Repr

/-- One element of the `allScans` array built by the dashboard route
(only the fields the helpers read). `none` models an absent/null field. -/
structure ScanData where
  name : String
  freshness : Option String
  scannedDate : Option DateVal
  addedAt : Option DateVal
  harvestedDate : Option DateVal
deriving DecidableEq, Repr

/-- One iteration of the `scans.forEach` of
`calculateFreshnessDistribution`: `scan.freshness || ''` followed by the
classifier chain, incrementing the matching counter. -/
def tallyStep (d : Distribution) (scan : ScanData) : Distribution :=
  match classifyFreshness (scan.freshness.getD "") with
  | .unripe => { d with unripe := d.unripe + 1 }
  | .overripe => { d with overripe := d.overripe + 1 }
  | .ripe => { d with ripe := d.ripe + 1 }

/-- The `forEach` accumulation of `calculateFreshnessDistribution`. -/
def tallyFreshness (scans : List ScanData) : Distribution :=
  scans.foldl tallyStep ⟨0, 0, 0⟩

/-- `calculateFreshnessDistribution` : the tally, replaced by the
`{unripe: 1, ripe: 1, overripe: 1}` placeholder when all three counts
are zero. -/
def calculateFreshnessDistribution (scans : List ScanData) : Distribution :=
  let d := tallyFreshness scans
  if d.unripe = 0 ∧ d.ripe = 0 ∧ d.overripe = 0 then ⟨1, 1, 1⟩ else d

/-! ## Weekly buckets (`calculateWeeklyScans`)

The bucket array starts as `[0, 0, 0, 0]`, but the guard is only
`diffWeeks < 4`, so `weeklyData[3 - diffWeeks]++` can target index 4, 5, …
when `diffWeeks` is negative.  JavaScript then grows the array: the written
cell becomes `NaN` (`undefined++`), skipped positions become holes, and
`Array.prototype.map` keeps holes as holes.  A cell is therefore one of:
an integer, `NaN`, or a hole (`undefined`). -/

/-- A JavaScript array cell as it occurs in `weeklyData`. -/
inductive JsVal where
  | hole
  | nan
  | int (n : Int)
deriving DecidableEq, Repr

/-- Reading `a[i]`; out of range or a hole gives `undefined`. -/
def jsGet (a : List JsVal) (i : Nat) : JsVal :=
  a.getD i .hole

/-- Writing `a[i] = v`: in range it overwrites, past the end it grows the
array, filling skipped positions with holes. -/
def jsSet (a : List JsVal) (i : Nat) (v : JsVal) : List JsVal :=
  if i < a.length then a.set i v
  else a ++ List.replicate (i - a.length) .hole ++ [v]

/-- `x++` on one cell: `undefined + 1` and `NaN + 1` are `NaN`. -/
def jsInc : JsVal → JsVal
  | .hole => .nan
  | .nan => .nan
  | .int n => .int (n + 1)

/-- `a[i]++`. -/
def jsIncAt (a : List JsVal) (i : Nat) : List JsVal :=
  jsSet a i (jsInc (jsGet a i))

/-- `Math.max(1, x)` as the callback of the final `map`: holes stay holes
(`map` skips them), `Math.max(1, NaN)` is `NaN`. -/
def jsMax1 : JsVal → JsVal
  | .hole => .hole
  | .nan => .nan
  | .int n => .int (max 1 n)

/-- Milliseconds in one week: `7 * 24 * 60 * 60 * 1000`. -/
def weekMs : Int := 7 * 24 * 60 * 60 * 1000

/-- `scan.scannedDate || scan.addedAt || scan.harvestedDate`. -/
def anchorDate (scan : ScanData) : Option DateVal :=
  (scan.scannedDate.orElse fun _ => scan.addedAt).orElse fun _ => scan.harvestedDate

/-- `scanDate.toDate ? scanDate.toDate() : new Date(scanDate)`:
the epoch-milliseconds instant, or `none` for an Invalid Date (whose `NaN`
difference fails the `diffWeeks < 4` comparison, dropping the record). -/
def resolveDate : DateVal → Option Int
  | .native ms => some ms
  | .raw p => p

/-- One iteration of the `scans.forEach` of `calculateWeeklyScans`:
`Math.floor((now - date) / weekMs)` is Euclidean division by the positive
constant `weekMs`; the only guard is `diffWeeks < 4`, and `diffWeeks ≤ 3`
makes `3 - diffWeeks` a nonnegative index. -/
def weeklyStep (now : Int) (a : List JsVal) (scan : ScanData) : List JsVal :=
  match anchorDate scan with
  | none => a
  | some dv =>
    match resolveDate dv with
    | none => a
    | some ms =>
      let diffWeeks : Int := (now - ms) / weekMs
      if diffWeeks < 4 then jsIncAt a (3 - diffWeeks).toNat else a

/-- `calculateWeeklyScans`: the `[2, 5, 8, 12]` placeholder on an empty
input, otherwise the `forEach` accumulation from `[0, 0, 0, 0]` followed by
`weeklyData.map(count => Math.max(1, count))`. -/
def calculateWeeklyScans (now : Int) (scans : List ScanData) : List JsVal :=
  if scans.length = 0 then [.int 2, .int 5, .int 8, .int 12]
  else
    let weeklyData := scans.foldl (weeklyStep now) [.int 0, .int 0, .int 0, .int 0]
    weeklyData.map jsMax1

/-! ## Relative time (`formatTimeAgo`) -/

/-- The input shapes `formatTimeAgo` dispatches on: `null`/absent (falsy),
a Firestore `Timestamp` (has `toDate`; `nativeThrowing` models a truthy
`toDate` member whose call throws, caught by the surrounding `try`), a
string handed to `new Date(string)`, an object with a truthy numeric
`seconds` field, or any other value handed to `new Date(value)`.  `none`
in a parse position is an Invalid Date. -/
inductive JsTimestamp where
  | null
  | native (ms : Int)
  | nativeThrowing
  | strT (parse : Option Int)
  | secondsObj (s : Int)
  | otherObj (parse : Option Int)
deriving DecidableEq, Repr

/-- The decoding chain inside the `try` of `formatTimeAgo`: `.error` is a
thrown exception (reaching the `catch`), `.ok none` an Invalid Date
(caught by the `isNaN` check).  `{seconds: 0}` has a falsy `seconds`
field and falls through to `new Date(object)`, an Invalid Date. -/
def tsDecode : JsTimestamp → Except Unit (Option Int)
  | .null => .ok none
  | .native ms => .ok (some ms)
  | .nativeThrowing => .error ()
  | .strT p => .ok p
  | .secondsObj s => if s ≠ 0 then .ok (some (s * 1000)) else .ok none
  | .otherObj p => .ok p

/-- The threshold chain on `diffMinutes`. -/
def minutesLabel (m : Int) : String :=
  if m < 1 then "Just now"
  else if m < 60 then toString m ++ " mins ago"
  else if m < 1440 then toString (m / 60) ++ " hr ago"
  else toString (m / 1440) ++ " days ago"

/-- `formatTimeAgo`: falsy input short-circuits to `"Recent"`; a thrown
decode or an Invalid Date gives `"Recent"`; otherwise
`diffMinutes = Math.floor((now - activityTime) / 60000)` feeds the
threshold chain. -/
def formatTimeAgo (now : Int) (t : JsTimestamp) : String :=
  match t with
  | .null => "Recent"
  | t =>
    match tsDecode t with
    | .error _ => "Recent"
    | .ok none => "Recent"
    | .ok (some ms) => minutesLabel ((now - ms) / 60000)

/-! ## Dashboard aggregation (`GET /api/dashboard/stats`)

The route fetches the user list, then per user — inside one `try` — the
`shelf` sub-collection (adding its size to `totalShelfItems`), then the
`history` sub-collection (adding its size to `totalHistoryItems`), then
builds the scan/activity entries, and last adds
`shelfCount + historyCount` to `totalScans`.  A throw anywhere in the
`try` is caught and the loop continues with the next user. -/

/-- One shelf document (the fields the dashboard reads). -/
structure ShelfDoc where
  name : Option String
  freshness : Option String
  scannedDate : Option DateVal
  addedAt : Option DateVal
  harvestedDate : Option DateVal
deriving DecidableEq, Repr

/-- One history document (the fields the dashboard reads). -/
structure HistDoc where
  name : Option String
  scannedDate : Option DateVal
  archivedAt : Option DateVal
deriving DecidableEq, Repr

/-- One user together with the outcomes of its two sub-collection
fetches; `.error` is a rejected Firestore query. -/
structure UserFetch where
  userId : String
  email : Option String
  shelf : Except Unit (List ShelfDoc)
  history : Except Unit (List HistDoc)

/-- `x || y` for a possibly-absent date field. -/
def dateOr (x y : Option DateVal) : Option DateVal :=
  x.orElse fun _ => y

/-- View a date field as `formatTimeAgo` input. -/
def tsOfDate : Option DateVal → JsTimestamp
  | none => .null
  | some (.native ms) => .native ms
  | some (.raw p) => .strT p

/-- The `scanData` object pushed onto `allScans` (helper-relevant fields;
`shelfItem.freshness || 'Unknown'` and `shelfItem.name || 'Unknown Papaya'`
apply the defaults before the push). -/
def mkScanData (sd : ShelfDoc) : ScanData :=
  { name := sd.name.getD "Unknown Papaya"
  , freshness := some (sd.freshness.getD "Unknown")
  , scannedDate := sd.scannedDate
  , addedAt := sd.addedAt
  , harvestedDate := sd.harvestedDate }

/-- An entry of `userActivities`. -/
structure Activity where
  user : String
  action : String
  time : String
  type : String
deriving DecidableEq, Repr

/-- The activity pushed for one shelf document. -/
def shelfActivity (now : Int) (email : Option String) (userId : String) (sd : ShelfDoc) : Activity :=
  let scan := mkScanData sd
  { user := email.getD ("User " ++ (userId.toList.take 8).asString)
  , action := "Scanned " ++ scan.name ++ " - " ++ (scan.freshness.getD "")
  , time := formatTimeAgo now (tsOfDate (dateOr sd.scannedDate sd.addedAt))
  , type := "scan" }

/-- The activity pushed for one history document. -/
def histActivity (now : Int) (email : Option String) (userId : String) (hd : HistDoc) : Activity :=
  { user := email.getD ("User " ++ (userId.toList.take 8).asString)
  , action := "History: " ++ hd.name.getD "Activity"
  , time := formatTimeAgo now (tsOfDate (dateOr hd.scannedDate hd.archivedAt))
  , type := "history" }

/-- The mutable accumulators of the dashboard loop. -/
structure Acc where
  totalScans : Nat
  totalShelfItems : Nat
  totalHistoryItems : Nat
  allScans : List ScanData
  userActivities : List Activity
deriving DecidableEq, Repr

/-- The empty accumulator state before the loop. -/
def Acc.init : Acc := ⟨0, 0, 0, [], []⟩

/-- The body of `for (const userDoc of usersSnapshot.docs)`.  The shelf
fetch failing aborts the whole `try` before any accumulator changes; the
history fetch failing aborts it after `totalShelfItems` was already
increased but before anything else; only with both fetches succeeding do
the item lists and `totalScans` advance. -/
def processUser (now : Int) (acc : Acc) (u : UserFetch) : Acc :=
  match u.shelf with
  | .error _ => acc
  | .ok shelfDocs =>
    let acc1 := { acc with totalShelfItems := acc.totalShelfItems + shelfDocs.length }
    match u.history with
    | .error _ => acc1
    | .ok histDocs =>
      { acc1 with
          totalHistoryItems := acc1.totalHistoryItems + histDocs.length
        , allScans := acc1.allScans ++ shelfDocs.map mkScanData
        , userActivities := acc1.userActivities
            ++ shelfDocs.map (shelfActivity now u.email u.userId)
            ++ histDocs.map (histActivity now u.email u.userId)
        , totalScans := acc1.totalScans + (shelfDocs.length + histDocs.length) }

/-- The whole per-user loop. -/
def runUsers (now : Int) (users : List UserFetch) : Acc :=
  users.foldl (processUser now) Acc.init

/-- The response fields the claims are about (plus status: 200 on the
success path, 500 with the fixed fallback payload when the top-level user
listing throws). -/
structure DashResponse where
  status : Nat
  totalUsers : Nat
  totalScans : Nat
  papayasOnShelf : Nat
  totalShelfItems : Nat
  totalHistoryItems : Nat
  ripenessDistribution : Distribution
  weeklyScans : List JsVal
deriving DecidableEq, Repr

/-- `GET /api/dashboard/stats`: fold the users, then shape the response;
a failed top-level listing returns the catch-branch fallback. -/
def dashboardStats (now : Int) (fetch : Except Unit (List UserFetch)) : DashResponse :=
  match fetch with
  | .error _ =>
    { status := 500, totalUsers := 0, totalScans := 0, papayasOnShelf := 0
    , totalShelfItems := 0, totalHistoryItems := 0
    , ripenessDistribution := ⟨1, 1, 1⟩
    , weeklyScans := [.int 2, .int 5, .int 8, .int 12] }
  | .ok users =>
    let acc := runUsers now users
    { status := 200
    , totalUsers := users.length
    , totalScans := acc.totalScans
    , papayasOnShelf := acc.totalShelfItems
    , totalShelfItems := acc.totalShelfItems
    , totalHistoryItems := acc.totalHistoryItems
    , ripenessDistribution := calculateFreshnessDistribution acc.allScans
    , weeklyScans := calculateWeeklyScans now acc.allScans }

/-! ## Delete user (`DELETE /api/users/delete/:userId`) -/

/-- A stored user document with its two sub-collections (document ids). -/
structure UserData where
  email : Option String
  shelfDocs : List String
  historyDocs : List String
deriving DecidableEq, Repr

/-- The `users` collection. -/
structure Store where
  users : List (String × UserData)
deriving DecidableEq, Repr

/-- `db.collection('users').doc(userId).get()` followed by `.exists`. -/
def lookupUser (st : Store) (uid : String) : Option UserData :=
  (st.users.find? fun p => p.1 == uid).map Prod.snd

/-- One destructive step the route issues, in program order. -/
inductive DeleteOp where
  | shelfDoc (uid docId : String)
  | historyDoc (uid docId : String)
  | userDoc (uid : String)
  | authUser (uid : String)
deriving DecidableEq, Repr

/-- Effect of one step on the store (the identity-provider deletion does
not touch the document store; its failure is caught and logged). -/
def applyOp (st : Store) : DeleteOp → Store
  | .shelfDoc uid d =>
    ⟨st.users.map fun p =>
      if p.1 == uid then (p.1, { p.2 with shelfDocs := p.2.shelfDocs.filter (fun x => x != d) }) else p⟩
  | .historyDoc uid d =>
    ⟨st.users.map fun p =>
      if p.1 == uid then (p.1, { p.2 with historyDocs := p.2.historyDocs.filter (fun x => x != d) }) else p⟩
  | .userDoc uid => ⟨st.users.filter fun p => !(p.1 == uid)⟩
  | .authUser _ => st

/-- Outcome of the route: HTTP status, the destructive steps in the order
issued, and the resulting store. -/
structure DeleteResult where
  status : Nat
  ops : List DeleteOp
  store : Store
deriving DecidableEq, Repr

/-- The delete route: absent user document → 404 and nothing issued;
otherwise every shelf document, then every history document, then the
user document, then the identity-provider account. -/
def deleteUserRoute (st : Store) (uid : String) : DeleteResult :=
  match lookupUser st uid with
  | none => ⟨404, [], st⟩
  | some u =>
    let ops := u.shelfDocs.map (DeleteOp.shelfDoc uid)
      ++ u.historyDocs.map (DeleteOp.historyDoc uid)
      ++ [DeleteOp.userDoc uid, DeleteOp.authUser uid]
    ⟨200, ops, ops.foldl applyOp st⟩

/-! ## Helper lemmas -/

/-- Every scan increments exactly one of the three counters, so the fold
adds the list length to the total of the three fields. -/
theorem foldl_tallyStep_total (scans : List ScanData) (d : Distribution) :
    ((scans.foldl tallyStep d).unripe + (scans.foldl tallyStep d).ripe
      + (scans.foldl tallyStep d).overripe)
      = (d.unripe + d.ripe + d.overripe) + scans.length := by
  induction scans generalizing d with
  | nil => simp
  | cons s l ih =>
    simp only [List.foldl_cons, List.length_cons]
    rw [ih]
    cases h : classifyFreshness (s.freshness.getD "") <;> simp [tallyStep, h] <;> omega

/-- The three tallies sum to the number of scans. -/
theorem tallyFreshness_total (scans : List ScanData) :
    (tallyFreshness scans).unripe + (tallyFreshness scans).ripe
      + (tallyFreshness scans).overripe = scans.length := by
  simpa using foldl_tallyStep_total scans ⟨0, 0, 0⟩

/-! ## Claims -/

/-- **C5.** The freshness classifier applies the three rules in order on
the lower-cased input, first match winning: an unripe trigger
(`includes 'unripe'`, `=== 'green'`, `includes 'early'`) yields `unripe`
even when an overripe trigger is also present; an overripe trigger without
an unripe trigger yields `overripe`; everything else — including `""`,
`"Unknown"` and `"fully ripe"` — defaults to `ripe`. -/
theorem freshness_classifier_first_match :
    (∀ s : String, unripeTrigger (jsToLower s) = true → classifyFreshness s = .unripe) ∧
    (∀ s : String, unripeTrigger (jsToLower s) = false → overripeTrigger (jsToLower s) = true →
      classifyFreshness s = .overripe) ∧
    (∀ s : String, unripeTrigger (jsToLower s) = false → overripeTrigger (jsToLower s) = false →
      classifyFreshness s = .ripe) ∧
    classifyFreshness "" = .ripe ∧
    classifyFreshness "Green" = .unripe ∧
    classifyFreshness "ROTTEN" = .overripe ∧
    classifyFreshness "fully ripe" = .ripe ∧
    classifyFreshness "Unknown" = .ripe ∧
    classifyFreshness "unripe but late" = .unripe := by
  refine ⟨?_, ?_, ?_, by decide, by decide, by decide, by decide, by decide, by decide⟩
  · intro s h
    simp [classifyFreshness, h]
  · intro s h1 h2
    simp [classifyFreshness, h1, h2]
  · intro s h1 h2
    simp [classifyFreshness, h1, h2]

/-- Witness for C5 at a label carrying both an unripe and an overripe
trigger. -/
theorem freshness_classifier_first_match_witness :
    unripeTrigger (jsToLower "unripe going late") = true ∧
      classifyFreshness "unripe going late" = .unripe :=
  ⟨by decide, freshness_classifier_first_match.1 "unripe going late" (by decide)⟩

/-- **C10.** Each record lands in exactly one bucket, so on a non-empty
scan list the returned distribution's three counts sum to the number of
records; and the all-zero tally that triggers the
`{unripe: 1, ripe: 1, overripe: 1}` placeholder occurs exactly on the
empty list. -/
theorem freshness_distribution_partition :
    (∀ scans : List ScanData, scans ≠ [] →
      (calculateFreshnessDistribution scans).unripe
        + (calculateFreshnessDistribution scans).ripe
        + (calculateFreshnessDistribution scans).overripe = scans.length) ∧
    (∀ scans : List ScanData, tallyFreshness scans = ⟨0, 0, 0⟩ ↔ scans = []) := by
  constructor
  · intro scans hne
    have htot := tallyFreshness_total scans
    have hlen : scans.length ≠ 0 := by
      simpa using List.length_pos.mpr hne |>.ne'
    unfold calculateFreshnessDistribution
    have hcond : ¬ ((tallyFreshness scans).unripe = 0 ∧ (tallyFreshness scans).ripe = 0
        ∧ (tallyFreshness scans).overripe = 0) := by
      intro ⟨h1, h2, h3⟩
      rw [h1, h2, h3] at htot
      omega
    simp only [hcond, if_false]
    exact htot
  · intro scans
    constructor
    · intro h
      have htot := tallyFreshness_total scans
      rw [h] at htot
      simpa using (List.length_eq_zero.mp htot.symm)
    · intro h
      rw [h]
      rfl

/-- Witness for C10 on a one-record list. -/
theorem freshness_distribution_partition_witness :
    (calculateFreshnessDistribution
        [{ name := "p", freshness := some "green",
           scannedDate := none, addedAt := none, harvestedDate := none }]).unripe
      + (calculateFreshnessDistribution
        [{ name := "p", freshness := some "green",
           scannedDate := none, addedAt := none, harvestedDate := none }]).ripe
      + (calculateFreshnessDistribution
        [{ name := "p", freshness := some "green",
           scannedDate := none, addedAt := none, harvestedDate := none }]).overripe = 1 :=
  freshness_distribution_partition.1 _ (by decide)

/-- A scan whose anchor lies exactly one week in the future of `now = 0`
(`diffWeeks = -1`). -/
def futureScanOneWeek : ScanData :=
  { name := "p", freshness := some "ripe"
  , scannedDate := some (.native 604800000), addedAt := none, harvestedDate := none }

/-- A scan whose anchor lies exactly two weeks in the future of `now = 0`
(`diffWeeks = -2`). -/
def futureScanTwoWeeks : ScanData :=
  { name := "p", freshness := some "ripe"
  , scannedDate := some (.native 1209600000), addedAt := none, harvestedDate := none }

/-- **C1.** The guard in `calculateWeeklyScans` is only `diffWeeks < 4`,
with no `diffWeeks >= 0` check: a record anchored one week in the future
(`diffWeeks = -1`) is *not* dropped — `weeklyData[4]++` turns `undefined`
into `NaN`, growing the array — so the returned sequence has five entries,
the last of them `NaN`, not four integers. -/
theorem weeklyScans_future_anchor_bug :
    calculateWeeklyScans 0 [futureScanOneWeek]
        = [.int 1, .int 1, .int 1, .int 1, .nan] ∧
      (calculateWeeklyScans 0 [futureScanOneWeek]).length ≠ 4 := by
  decide

/-- **C4.** On a non-empty input a returned cell can fail
`Math.max(1, ·) ≥ 1`: a record anchored two weeks in the future writes
`weeklyData[5]`, leaving a hole at index 4 (skipped by `map`) and `NaN`
(`Math.max(1, NaN)`) at index 5 — neither is an integer at least 1. -/
theorem weeklyScans_bucket_not_floored_bug :
    calculateWeeklyScans 0 [futureScanTwoWeeks]
        = [.int 1, .int 1, .int 1, .int 1, .hole, .nan] ∧
      JsVal.nan ∈ calculateWeeklyScans 0 [futureScanTwoWeeks] ∧
      JsVal.hole ∈ calculateWeeklyScans 0 [futureScanTwoWeeks] ∧
      (calculateWeeklyScans 0 [futureScanTwoWeeks]).length ≠ 4 := by
  decide

/-- A decode that throws reaches the `catch` and yields `"Recent"`. -/
theorem formatTimeAgo_thrown (now : Int) (t : JsTimestamp) (e : Unit)
    (h : tsDecode t = .error e) : formatTimeAgo now t = "Recent" := by
  cases t with
  | null => rfl
  | native ms => simp [tsDecode] at h
  | nativeThrowing => rfl
  | strT p => simp [tsDecode] at h
  | secondsObj s => by_cases hs : s = 0 <;> simp [tsDecode, hs] at h
  | otherObj p => simp [tsDecode] at h

/-- An Invalid Date fails the `isNaN` guard and yields `"Recent"`. -/
theorem formatTimeAgo_invalid (now : Int) (t : JsTimestamp)
    (h : tsDecode t = .ok none) : formatTimeAgo now t = "Recent" := by
  cases t with
  | null => rfl
  | native ms => simp [tsDecode] at h
  | nativeThrowing => simp [tsDecode] at h
  | strT p => simp [tsDecode] at h; simp [formatTimeAgo, tsDecode, h]
  | secondsObj s =>
    by_cases hs : s = 0
    · simp [formatTimeAgo, tsDecode, hs]
    · simp [tsDecode, hs] at h
  | otherObj p => simp [tsDecode] at h; simp [formatTimeAgo, tsDecode, h]

/-- A successful decode feeds `diffMinutes` into the threshold chain. -/
theorem formatTimeAgo_decoded (now ms : Int) (t : JsTimestamp)
    (h : tsDecode t = .ok (some ms)) :
    formatTimeAgo now t = minutesLabel ((now - ms) / 60000) := by
  cases t with
  | null => simp [tsDecode] at h
  | native ms' => simp [tsDecode] at h; subst h; rfl
  | nativeThrowing => simp [tsDecode] at h
  | strT p => simp [tsDecode] at h; subst h; rfl
  | secondsObj s =>
    by_cases hs : s = 0
    · simp [tsDecode, hs] at h
    · simp [tsDecode, hs] at h
      simp [formatTimeAgo, tsDecode, hs, h]
  | otherObj p => simp [tsDecode] at h; subst h; rfl

/-- **C6.** `formatTimeAgo` returns `"Recent"` on absent or unparseable
input; otherwise, with `m = Math.floor((now - t) / 60000)` elapsed
minutes: `"Just now"` for `m < 1`, `"<m> mins ago"` for `m < 60`,
`"<m/60> hr ago"` for `m < 1440`, else `"<m/1440> days ago"` — together
with the spec's concrete examples. -/
theorem formatTimeAgo_thresholds :
    (∀ now : Int, formatTimeAgo now .null = "Recent") ∧
    (∀ (now : Int) (t : JsTimestamp), tsDecode t = .ok none →
      formatTimeAgo now t = "Recent") ∧
    (∀ (now ms : Int) (t : JsTimestamp), tsDecode t = .ok (some ms) →
      ((now - ms) / 60000 < 1 → formatTimeAgo now t = "Just now") ∧
      (1 ≤ (now - ms) / 60000 → (now - ms) / 60000 < 60 →
        formatTimeAgo now t = toString ((now - ms) / 60000) ++ " mins ago") ∧
      (60 ≤ (now - ms) / 60000 → (now - ms) / 60000 < 1440 →
        formatTimeAgo now t = toString ((now - ms) / 60000 / 60) ++ " hr ago") ∧
      (1440 ≤ (now - ms) / 60000 →
        formatTimeAgo now t = toString ((now - ms) / 60000 / 1440) ++ " days ago")) ∧
    formatTimeAgo 1700000000000 (.secondsObj 1699999970) = "Just now" ∧
    formatTimeAgo 1700000000000 (.strT (some 1699997300000)) = "45 mins ago" ∧
    formatTimeAgo 1700000000000 (.native 1699989200000) = "3 hr ago" ∧
    formatTimeAgo 1700000000000 (.strT (some 1699568000000)) = "5 days ago" ∧
    formatTimeAgo 1700000000000 (.strT none) = "Recent" := by
  refine ⟨fun _ => rfl, formatTimeAgo_invalid, ?_, by decide, by decide, by decide,
    by decide, by decide⟩
  intro now ms t h
  have hd := formatTimeAgo_decoded now ms t h
  refine ⟨?_, ?_, ?_, ?_⟩
  · intro h1
    rw [hd]
    unfold minutesLabel
    rw [if_pos h1]
  · intro h1 h2
    rw [hd]
    unfold minutesLabel
    rw [if_neg (by omega), if_pos h2]
  · intro h1 h2
    rw [hd]
    unfold minutesLabel
    rw [if_neg (by omega), if_neg (by omega), if_pos h2]
  · intro h1
    rw [hd]
    unfold minutesLabel
    rw [if_neg (by omega), if_neg (by omega), if_neg (by omega)]

/-- Witness for C6 on a store-native timestamp 45 minutes old. -/
theorem formatTimeAgo_thresholds_witness :
    formatTimeAgo 1700000000000 (.native 1699997300000)
      = toString ((1700000000000 - 1699997300000 : Int) / 60000) ++ " mins ago" :=
  (formatTimeAgo_thresholds.2.2.1 1700000000000 1699997300000
      (.native 1699997300000) rfl).2.1 (by decide) (by decide)

/-- **C7.** `formatTimeAgo` is total: every input yields one of the five
output shapes, and every decoding failure — falsy input, a throwing
decode, an Invalid Date — yields `"Recent"`. -/
theorem formatTimeAgo_total_grammar :
    ∀ (now : Int) (t : JsTimestamp),
      (formatTimeAgo now t = "Recent" ∨ formatTimeAgo now t = "Just now" ∨
        (∃ n : Int, formatTimeAgo now t = toString n ++ " mins ago") ∨
        (∃ n : Int, formatTimeAgo now t = toString n ++ " hr ago") ∨
        (∃ n : Int, formatTimeAgo now t = toString n ++ " days ago")) ∧
      (t = .null ∨ t = .nativeThrowing ∨ tsDecode t = .ok none →
        formatTimeAgo now t = "Recent") := by
  intro now t
  constructor
  · cases hdec : tsDecode t with
    | error e => exact Or.inl (formatTimeAgo_thrown now t e hdec)
    | ok o =>
      cases o with
      | none => exact Or.inl (formatTimeAgo_invalid now t hdec)
      | some ms =>
        rw [formatTimeAgo_decoded now ms t hdec]
        unfold minutesLabel
        split_ifs
        · exact Or.inr (Or.inl rfl)
        · exact Or.inr (Or.inr (Or.inl ⟨_, rfl⟩))
        · exact Or.inr (Or.inr (Or.inr (Or.inl ⟨_, rfl⟩)))
        · exact Or.inr (Or.inr (Or.inr (Or.inr ⟨_, rfl⟩)))
  · rintro (rfl | rfl | h)
    · rfl
    · rfl
    · exact formatTimeAgo_invalid now t h

/-- Witness for C7 on a timestamp object whose `toDate` call throws. -/
theorem formatTimeAgo_total_grammar_witness :
    formatTimeAgo 0 .nativeThrowing = "Recent" :=
  (formatTimeAgo_total_grammar 0 .nativeThrowing).2 (Or.inr (Or.inl rfl))

/-- **C9.** A parseable timestamp strictly in the future makes
`diffMinutes` negative, which passes the `< 1` threshold: the result is
`"Just now"`. -/
theorem formatTimeAgo_future_just_now :
    ∀ (now ms : Int) (t : JsTimestamp), tsDecode t = .ok (some ms) → now < ms →
      formatTimeAgo now t = "Just now" := by
  intro now ms t h hf
  rw [formatTimeAgo_decoded now ms t h]
  unfold minutesLabel
  rw [if_pos (by omega)]

/-- Witness for C9 one minute into the future. -/
theorem formatTimeAgo_future_just_now_witness :
    formatTimeAgo 0 (.native 60000) = "Just now" :=
  formatTimeAgo_future_just_now 0 60000 (.native 60000) rfl (by decide)

/-- Did a sub-collection fetch succeed? -/
def fetchOk {α : Type} : Except Unit α → Bool
  | .ok _ => true
  | .error _ => false

/-- A shelf document with every optional field absent. -/
def emptyShelfDoc : ShelfDoc := ⟨none, none, none, none, none⟩

/-- A history document with every optional field absent. -/
def emptyHistDoc : HistDoc := ⟨none, none, none⟩

/-- **C2 (amended).** If a user's shelf fetch fails, that user contributes
zero to every accumulator; but if the shelf fetch succeeds and only the
history fetch fails, the user's shelf size has already been added to
`totalShelfItems` (only `totalHistoryItems`, `totalScans` and the item
lists receive nothing).  In both cases the loop continues and the request
returns 200. -/
theorem dashboard_partial_failure_contribution :
    ∀ (now : Int) (acc : Acc) (u : UserFetch) (users : List UserFetch),
      (u.shelf = .error () → processUser now acc u = acc) ∧
      (∀ docs, u.shelf = .ok docs → u.history = .error () →
        processUser now acc u
          = { acc with totalShelfItems := acc.totalShelfItems + docs.length }) ∧
      (dashboardStats now (.ok users)).status = 200 := by
  intro now acc u users
  refine ⟨?_, ?_, rfl⟩
  · intro h
    simp [processUser, h]
  · intro docs h1 h2
    simp [processUser, h1, h2]

/-- Witness for C2 at a user whose shelf fetch fails. -/
theorem dashboard_partial_failure_contribution_witness :
    processUser 0 Acc.init
        { userId := "u", email := none, shelf := .error (), history := .error () }
      = Acc.init :=
  (dashboard_partial_failure_contribution 0 Acc.init
    { userId := "u", email := none, shelf := .error (), history := .error () } []).1 rfl

/-- A user whose shelf fetch succeeds with one document and whose history
fetch fails. -/
def histFailUser : UserFetch :=
  { userId := "u1", email := none, shelf := .ok [emptyShelfDoc], history := .error () }

/-- **C2, counterexample to the claim as stated.** One user whose shelf
fetch succeeds with one document and whose history fetch fails: its shelf
count still lands in `totalShelfItems`, so the failed user's contribution
is not zero. -/
theorem dashboard_shelf_counted_on_history_failure :
    (dashboardStats 0 (.ok [histFailUser])).totalShelfItems = 1 ∧
    (dashboardStats 0 (.ok [histFailUser])).totalScans = 0 ∧
    (dashboardStats 0 (.ok [histFailUser])).status = 200 := by
  refine ⟨rfl, rfl, rfl⟩

/-- A single step of the dashboard loop preserves
`totalScans = totalShelfItems + totalHistoryItems` as long as the user's
history fetch succeeds whenever its shelf fetch does. -/
theorem processUser_preserves_sum (now : Int) (acc : Acc) (u : UserFetch)
    (hu : fetchOk u.shelf = true → fetchOk u.history = true)
    (h : acc.totalScans = acc.totalShelfItems + acc.totalHistoryItems) :
    (processUser now acc u).totalScans
      = (processUser now acc u).totalShelfItems
        + (processUser now acc u).totalHistoryItems := by
  cases hs : u.shelf with
  | error e => simpa [processUser, hs] using h
  | ok docs =>
    cases hh : u.history with
    | error e =>
      exact absurd (hu (by simp [hs, fetchOk])) (by simp [hh, fetchOk])
    | ok hd =>
      simp [processUser, hs, hh]
      omega

/-- The loop-level version of `processUser_preserves_sum`. -/
theorem foldl_processUser_sum (now : Int) (users : List UserFetch) (acc : Acc)
    (hu : ∀ u ∈ users, fetchOk u.shelf = true → fetchOk u.history = true)
    (h : acc.totalScans = acc.totalShelfItems + acc.totalHistoryItems) :
    (users.foldl (processUser now) acc).totalScans
      = (users.foldl (processUser now) acc).totalShelfItems
        + (users.foldl (processUser now) acc).totalHistoryItems := by
  induction users generalizing acc with
  | nil => simpa using h
  | cons u l ih =>
    simp only [List.foldl_cons]
    exact ih _ (fun v hv => hu v (List.mem_cons_of_mem _ hv))
      (processUser_preserves_sum now acc u (hu u (List.mem_cons_self _ _)) h)

/-- **C3 (amended).** `totalScans = totalShelfItems + totalHistoryItems`
holds for every run in which no user's history fetch fails after a
successful shelf fetch (in particular for every failure-free run). -/
theorem dashboard_totalScans_decomposition :
    ∀ (now : Int) (users : List UserFetch),
      (∀ u ∈ users, fetchOk u.shelf = true → fetchOk u.history = true) →
      (dashboardStats now (.ok users)).totalScans
        = (dashboardStats now (.ok users)).totalShelfItems
          + (dashboardStats now (.ok users)).totalHistoryItems := by
  intro now users hu
  exact foldl_processUser_sum now users Acc.init hu rfl

/-- A user with both fetches succeeding, one document each. -/
def bothOkUser : UserFetch :=
  { userId := "u3", email := some "a@b", shelf := .ok [emptyShelfDoc]
  , history := .ok [emptyHistDoc] }

/-- Witness for C3 at one user with both fetches succeeding. -/
theorem dashboard_totalScans_decomposition_witness :
    (dashboardStats 0 (.ok [bothOkUser])).totalScans
      = (dashboardStats 0 (.ok [bothOkUser])).totalShelfItems
        + (dashboardStats 0 (.ok [bothOkUser])).totalHistoryItems :=
  dashboard_totalScans_decomposition 0 [bothOkUser]
    (by intro u hu; simp at hu; subst hu; intro _; rfl)

/-- A user with two shelf documents and a failing history fetch. -/
def twoShelfHistFailUser : UserFetch :=
  { userId := "u2", email := none
  , shelf := .ok [emptyShelfDoc, { emptyShelfDoc with name := some "q" }]
  , history := .error () }

/-- **C3, counterexample to the claim as stated.** One user with two shelf
documents and a failing history fetch: `totalScans = 0` while
`totalShelfItems + totalHistoryItems = 2`. -/
theorem dashboard_totalScans_mismatch :
    (dashboardStats 0 (.ok [twoShelfHistFailUser])).totalScans
      ≠ (dashboardStats 0 (.ok [twoShelfHistFailUser])).totalShelfItems
        + (dashboardStats 0 (.ok [twoShelfHistFailUser])).totalHistoryItems := by
  decide

/-- Searching for `uid` after filtering out every `uid` entry finds
nothing. -/
theorem find?_filter_ne (l : List (String × UserData)) (uid : String) :
    (l.filter fun p => !(p.1 == uid)).find? (fun p => p.1 == uid) = none := by
  induction l with
  | nil => rfl
  | cons p l ih =>
    by_cases h : p.1 == uid
    · simp [List.filter_cons, h, ih]
    · simp [List.filter_cons, h, List.find?, ih]

/-- Deleting the user document removes `uid` from the store. -/
theorem lookupUser_after_userDoc (st : Store) (uid : String) :
    lookupUser (applyOp st (.userDoc uid)) uid = none := by
  simp [lookupUser, applyOp, find?_filter_ne]

/-- **C8.** The delete route issues every shelf-document delete and every
history-document delete strictly before the user-document delete (the
identity-provider deletion comes last and does not touch the store), and
the user document is gone from the resulting store; when the user document
does not exist the route returns 404, issues no operation, and leaves the
store untouched. -/
theorem deleteUser_order_and_not_found :
    ∀ (st : Store) (uid : String),
      (lookupUser st uid = none → deleteUserRoute st uid = ⟨404, [], st⟩) ∧
      (∀ u, lookupUser st uid = some u →
        (deleteUserRoute st uid).status = 200 ∧
        (deleteUserRoute st uid).ops
          = u.shelfDocs.map (DeleteOp.shelfDoc uid)
            ++ u.historyDocs.map (DeleteOp.historyDoc uid)
            ++ [DeleteOp.userDoc uid, DeleteOp.authUser uid] ∧
        lookupUser (deleteUserRoute st uid).store uid = none) := by
  intro st uid
  constructor
  · intro h
    simp [deleteUserRoute, h]
  · intro u h
    refine ⟨?_, ?_, ?_⟩
    · simp [deleteUserRoute, h]
    · simp [deleteUserRoute, h]
    · simp only [deleteUserRoute, h]
      rw [List.foldl_append, List.foldl_append]
      simp only [List.foldl_cons, List.foldl_nil]
      exact lookupUser_after_userDoc _ uid

/-- A two-user store exercising C8. -/
def deleteStoreEx : Store :=
  ⟨[("u1", ⟨some "a@b", ["s1", "s2"], ["h1"]⟩), ("u2", ⟨none, [], []⟩)]⟩

/-- Witness for C8 on a concrete two-user store. -/
theorem deleteUser_order_and_not_found_witness :
    (deleteUserRoute deleteStoreEx "u1").status = 200 ∧
      lookupUser (deleteUserRoute deleteStoreEx "u1").store "u1" = none :=
  ⟨((deleteUser_order_and_not_found deleteStoreEx "u1").2
      ⟨some "a@b", ["s1", "s2"], ["h1"]⟩ rfl).1,
   ((deleteUser_order_and_not_found deleteStoreEx "u1").2
      ⟨some "a@b", ["s1", "s2"], ["h1"]⟩ rfl).2.2⟩

end Papaya
